import Mathlib

/-!
Verification of the guitar-tuner core: tuning catalog, frequency matcher,
pitch estimator and tuning-session state machine, shallowly embedded from
the TypeScript sources (src/types/index.ts, src/tuning/tunings.ts,
src/tuning/note-mapper.ts, src/audio/pitch-detector.ts,
src/tuning/session-manager.ts).  JavaScript numbers are modelled as real
numbers; `Math.round` is modelled as `fun x => Int.floor (x + 1/2)`,
which agrees with JavaScript's `Math.round` on all inputs used here.
-/

namespace GuitarTuner

/-- JavaScript `Math.round`: round half up. -/
noncomputable def jsRound (x : ℝ) : ℤ := ⌊x + 1/2⌋

-- ---------------------------------------------------------------------------
-- src/types/index.ts
-- ---------------------------------------------------------------------------

/-- `A4_FREQUENCY = 440` (src/types/index.ts). -/
def A4_FREQUENCY : ℝ := 440

/-- `A4_MIDI = 69` (src/types/index.ts). -/
def A4_MIDI : ℤ := 69

/-- `IN_TUNE_THRESHOLD = 5` cents (src/types/index.ts). -/
def IN_TUNE_THRESHOLD : ℝ := 5

/-- `GUITAR_FREQ_MIN = 70` Hz (src/types/index.ts). -/
def GUITAR_FREQ_MIN : ℝ := 70

/-- `GUITAR_FREQ_MAX = 1500` Hz (src/types/index.ts). -/
def GUITAR_FREQ_MAX : ℝ := 1500

/-- Musical note (interface `Note`, src/types/index.ts). -/
structure Note where
  name : String
  octave : ℤ
  frequency : ℝ
  midiNumber : ℤ

/-- Guitar string with target note (interface `GuitarString`). -/
structure GuitarString where
  stringNumber : ℕ
  note : Note

/-- Tuning preset (interface `TuningPreset`). -/
structure TuningPreset where
  id : String
  name : String
  description : String
  strings : List GuitarString

/-- `TuningStatus = 'flat' | 'sharp' | 'in-tune'`. -/
inductive TuningStatus where
  | flat
  | sharp
  | inTune
deriving DecidableEq, Repr

/-- Result from pitch detection (interface `PitchResult`). -/
structure PitchResult where
  frequency : Option ℝ
  noteName : Option String
  centsDeviation : ℝ
  closestString : Option ℕ
  inTune : Bool
  tuningStatus : TuningStatus
  advice : String

/-- Active tuning session state (interface `TuningSession`);
`startedAt` is a millisecond timestamp. -/
structure TuningSession where
  active : Bool
  tuningId : String
  tuningName : String
  startedAt : ℕ

-- ---------------------------------------------------------------------------
-- src/tuning/tunings.ts
-- ---------------------------------------------------------------------------

/-- `midiToFrequency(midiNumber) = 440 * 2^((midiNumber - 69) / 12)`. -/
noncomputable def midiToFrequency (midiNumber : ℤ) : ℝ :=
  A4_FREQUENCY * (2 : ℝ) ^ (((midiNumber : ℝ) - (A4_MIDI : ℝ)) / 12)

/-- Helper `note(name, octave, midiNumber)`: the frequency is
`Math.round(midiToFrequency(midiNumber) * 100) / 100`. -/
noncomputable def note (name : String) (octave : ℤ) (midiNumber : ℤ) : Note :=
  { name := name
    octave := octave
    midiNumber := midiNumber
    frequency := (jsRound (midiToFrequency midiNumber * 100) : ℝ) / 100 }

/-- First entry of `TUNING_PRESETS`: standard tuning. -/
noncomputable def standardPreset : TuningPreset :=
  { id := "standard"
    name := "Standard"
    description := "Standard tuning (E A D G B E)"
    strings :=
      [ ⟨6, note "E" 2 40⟩
      , ⟨5, note "A" 2 45⟩
      , ⟨4, note "D" 3 50⟩
      , ⟨3, note "G" 3 55⟩
      , ⟨2, note "B" 3 59⟩
      , ⟨1, note "E" 4 64⟩ ] }

/-- Second entry of `TUNING_PRESETS`: drop D. -/
noncomputable def dropDPreset : TuningPreset :=
  { id := "drop-d"
    name := "Drop D"
    description := "Drop D tuning (D A D G B E) - 6th string lowered to D"
    strings :=
      [ ⟨6, note "D" 2 38⟩
      , ⟨5, note "A" 2 45⟩
      , ⟨4, note "D" 3 50⟩
      , ⟨3, note "G" 3 55⟩
      , ⟨2, note "B" 3 59⟩
      , ⟨1, note "E" 4 64⟩ ] }

/-- Third entry of `TUNING_PRESETS`: half step down. -/
noncomputable def halfStepDownPreset : TuningPreset :=
  { id := "half-step-down"
    name := "Half Step Down"
    description := "Eb tuning (Eb Ab Db Gb Bb Eb) - all strings down 1 semitone"
    strings :=
      [ ⟨6, note "Eb" 2 39⟩
      , ⟨5, note "Ab" 2 44⟩
      , ⟨4, note "Db" 3 49⟩
      , ⟨3, note "Gb" 3 54⟩
      , ⟨2, note "Bb" 3 58⟩
      , ⟨1, note "Eb" 4 63⟩ ] }

/-- Fourth entry of `TUNING_PRESETS`: open G. -/
noncomputable def openGPreset : TuningPreset :=
  { id := "open-g"
    name := "Open G"
    description := "Open G tuning (D G D G B D) - strums a G major chord"
    strings :=
      [ ⟨6, note "D" 2 38⟩
      , ⟨5, note "G" 2 43⟩
      , ⟨4, note "D" 3 50⟩
      , ⟨3, note "G" 3 55⟩
      , ⟨2, note "B" 3 59⟩
      , ⟨1, note "D" 4 62⟩ ] }

/-- Fifth entry of `TUNING_PRESETS`: open D. -/
noncomputable def openDPreset : TuningPreset :=
  { id := "open-d"
    name := "Open D"
    description := "Open D tuning (D A D F# A D) - strums a D major chord"
    strings :=
      [ ⟨6, note "D" 2 38⟩
      , ⟨5, note "A" 2 45⟩
      , ⟨4, note "D" 3 50⟩
      , ⟨3, note "F#" 3 54⟩
      , ⟨2, note "A" 3 57⟩
      , ⟨1, note "D" 4 62⟩ ] }

/-- Sixth entry of `TUNING_PRESETS`: DADGAD. -/
noncomputable def dadgadPreset : TuningPreset :=
  { id := "dadgad"
    name := "DADGAD"
    description := "DADGAD tuning (D A D G A D) - popular for Celtic music"
    strings :=
      [ ⟨6, note "D" 2 38⟩
      , ⟨5, note "A" 2 45⟩
      , ⟨4, note "D" 3 50⟩
      , ⟨3, note "G" 3 55⟩
      , ⟨2, note "A" 3 57⟩
      , ⟨1, note "D" 4 62⟩ ] }

/-- `TUNING_PRESETS` (src/tuning/tunings.ts). -/
noncomputable def TUNING_PRESETS : List TuningPreset :=
  [standardPreset, dropDPreset, halfStepDownPreset, openGPreset, openDPreset,
   dadgadPreset]

/-- `getTuningById(id)`: `TUNING_PRESETS.find((t) => t.id === id)`. -/
noncomputable def getTuningById (id : String) : Option TuningPreset :=
  TUNING_PRESETS.find? (fun t => t.id == id)

/-- `getTuningIds()`: `TUNING_PRESETS.map((t) => t.id)`. -/
noncomputable def getTuningIds : List String :=
  TUNING_PRESETS.map (fun t => t.id)

-- ---------------------------------------------------------------------------
-- src/tuning/note-mapper.ts
-- ---------------------------------------------------------------------------

/-- `calculateCents(detectedFreq, targetFreq) = 1200 * log2(detected/target)`. -/
noncomputable def calculateCents (detectedFreq targetFreq : ℝ) : ℝ :=
  1200 * Real.logb 2 (detectedFreq / targetFreq)

/-- Loop state of `findClosestString`: the candidate tracked by the mutable
variables `closestString`, `smallestCentsDiff`, `closestNoteName`.  The JS
code initialises `smallestCentsDiff` to `Infinity` and `closestString` to
`null`; since `closestString` is `null` exactly while `smallestCentsDiff`
is `Infinity`, the pair is modelled as a single `Option`. -/
structure Cand where
  stringNumber : ℕ
  noteName : String
  absCents : ℝ

/-- `absCents < smallestCentsDiff` where `none` stands for `Infinity`. -/
def candBound (acc : Option Cand) (a : ℝ) : Prop :=
  match acc with
  | none => True
  | some c => a < c.absCents

noncomputable instance (acc : Option Cand) (a : ℝ) : Decidable (candBound acc a) := by
  unfold candBound
  cases acc <;> infer_instance

/-- One iteration of the `for (const guitarString of tuning.strings)` loop of
`findClosestString`. -/
noncomputable def findStep (frequency : ℝ) (acc : Option Cand) (gs : GuitarString) :
    Option Cand :=
  let cents := calculateCents frequency gs.note.frequency
  let absCents := |cents|
  if candBound acc absCents ∧ absCents ≤ 100 then
    some ⟨gs.stringNumber, gs.note.name ++ toString gs.note.octave, absCents⟩
  else
    acc

/-- Return record of `findClosestString`. -/
structure FoundString where
  stringNumber : ℕ
  centsOff : ℝ
  noteName : String

/-- `findClosestString(frequency, tuning)` (src/tuning/note-mapper.ts).
Rejects out-of-range input, then scans the strings keeping the one with
the smallest absolute cents deviation among those within 100 cents, then
recomputes the signed cents against the first string with the winning
string number and rounds it to one decimal place.  (The JS non-null
assertion on the re-lookup is modelled by returning `none` on the
impossible miss.) -/
noncomputable def findClosestString (frequency : ℝ) (tuning : TuningPreset) :
    Option FoundString :=
  if frequency < GUITAR_FREQ_MIN ∨ frequency > GUITAR_FREQ_MAX then
    none
  else
    match tuning.strings.foldl (findStep frequency) none with
    | none => none
    | some c =>
      match tuning.strings.find? (fun s => s.stringNumber == c.stringNumber) with
      | none => none
      | some targetString =>
        let actualCents := calculateCents frequency targetString.note.frequency
        some
          { stringNumber := c.stringNumber
            centsOff := (jsRound (actualCents * 10) : ℝ) / 10
            noteName := c.noteName }

/-- `getTuningStatus(cents)` (src/tuning/note-mapper.ts). -/
noncomputable def getTuningStatus (cents : ℝ) : TuningStatus :=
  if |cents| ≤ IN_TUNE_THRESHOLD then .inTune
  else if cents < 0 then .flat else .sharp

/-- `generateAdvice(status, cents, stringNumber, noteName)`
(src/tuning/note-mapper.ts). -/
noncomputable def generateAdvice (status : TuningStatus) (cents : ℝ)
    (stringNumber : Option ℕ) (noteName : Option String) : String :=
  match stringNumber, noteName with
  | some n, some nm =>
    let stringLabel := "String " ++ toString n ++ " (" ++ nm ++ ")"
    let centsAbs := (jsRound cents).natAbs
    match status with
    | .inTune => stringLabel ++ " is in tune!"
    | .flat => stringLabel ++ " is " ++ toString centsAbs ++ " cents flat. Tune UP (tighten)."
    | .sharp => stringLabel ++ " is " ++ toString centsAbs ++ " cents sharp. Tune DOWN (loosen)."
  | _, _ => "No pitch detected. Play a string and hold the note."

/-- `createPitchResult(frequency, tuning)` (src/tuning/note-mapper.ts). -/
noncomputable def createPitchResult (frequency : Option ℝ) (tuning : TuningPreset) :
    PitchResult :=
  match frequency with
  | none =>
    { frequency := none
      noteName := none
      centsDeviation := 0
      closestString := none
      inTune := false
      tuningStatus := .flat
      advice := "No pitch detected. Play a string and hold the note." }
  | some f =>
    match findClosestString f tuning with
    | none =>
      { frequency := some ((jsRound (f * 10) : ℝ) / 10)
        noteName := none
        centsDeviation := 0
        closestString := none
        inTune := false
        tuningStatus := .flat
        advice := "Detected " ++ toString (jsRound f) ++ " Hz - not close to any target string." }
    | some closest =>
      let status := getTuningStatus closest.centsOff
      let inTune := status = TuningStatus.inTune
      { frequency := some ((jsRound (f * 10) : ℝ) / 10)
        noteName := some closest.noteName
        centsDeviation := closest.centsOff
        closestString := some closest.stringNumber
        inTune := inTune
        tuningStatus := status
        advice := generateAdvice status closest.centsOff (some closest.stringNumber)
          (some closest.noteName) }

-- ---------------------------------------------------------------------------
-- src/audio/pitch-detector.ts
-- ---------------------------------------------------------------------------

/-- Root-mean-square of a sample window (`calculateRMS`). -/
noncomputable def calculateRMS (samples : List ℝ) : ℝ :=
  Real.sqrt ((samples.map (fun s => s * s)).sum / samples.length)

/-- JavaScript `array.slice(-n)`: the last `n` elements. -/
def sliceLast (l : List ℝ) (n : ℕ) : List ℝ := l.drop (l.length - n)

/-- State of `PitchDetectorProcessor`.  `detectPitch` is `none` before
`initialize()` installs the external pitchfinder algorithm (modelled as an
oracle `List ℝ → Option ℝ`). -/
structure PitchDetectorProcessor where
  detectPitch : Option (List ℝ → Option ℝ)
  sampleRate : ℕ
  accumulatedSamples : List ℝ
  bufferSize : ℕ
  rmsThreshold : ℝ
  lastFrequency : Option ℝ

/-- `new PitchDetectorProcessor(sampleRate)`. -/
noncomputable def PitchDetectorProcessor.new (sampleRate : ℕ := 44100) : PitchDetectorProcessor :=
  { detectPitch := none
    sampleRate := sampleRate
    accumulatedSamples := []
    bufferSize := 4096
    rmsThreshold := 1/100
    lastFrequency := none }

/-- `initialize()`: installs the detection algorithm (the external
`pitchfinder.ACF2PLUS` detector, taken as a parameter). -/
def initDetector (algo : List ℝ → Option ℝ) (st : PitchDetectorProcessor) :
    PitchDetectorProcessor :=
  { st with detectPitch := some algo }

/-- `process(samples)` of `PitchDetectorProcessor`
(src/audio/pitch-detector.ts lines 40-82): accumulate, wait for a full
window, analyse the last `bufferSize` samples, keep 50% overlap, apply the
RMS noise gate, then the guitar-range filter on the detector output. -/
noncomputable def PitchDetectorProcessor.process (st : PitchDetectorProcessor)
    (samples : List ℝ) : Except String (Option ℝ × PitchDetectorProcessor) :=
  match st.detectPitch with
  | none => .error "PitchDetector not initialized. Call initialize() first."
  | some detect =>
    let newBuffer := st.accumulatedSamples ++ samples
    if newBuffer.length < st.bufferSize then
      .ok (st.lastFrequency, { st with accumulatedSamples := newBuffer })
    else
      let analysisBuffer := sliceLast newBuffer st.bufferSize
      let overlap := st.bufferSize / 2
      let st1 := { st with accumulatedSamples := sliceLast newBuffer overlap }
      let rms := calculateRMS analysisBuffer
      if rms < st.rmsThreshold then
        .ok (none, { st1 with lastFrequency := none })
      else
        match detect analysisBuffer with
        | some frequency =>
          if GUITAR_FREQ_MIN ≤ frequency ∧ frequency ≤ GUITAR_FREQ_MAX then
            .ok (some frequency, { st1 with lastFrequency := some frequency })
          else
            .ok (st1.lastFrequency, st1)
        | none => .ok (st1.lastFrequency, st1)

/-- `getLastFrequency()`. -/
def PitchDetectorProcessor.getLastFrequency (st : PitchDetectorProcessor) :
    Option ℝ := st.lastFrequency

/-- `reset()`. -/
def PitchDetectorProcessor.reset (st : PitchDetectorProcessor) :
    PitchDetectorProcessor :=
  { st with accumulatedSamples := [], lastFrequency := none }

-- ---------------------------------------------------------------------------
-- src/tuning/session-manager.ts
-- ---------------------------------------------------------------------------

/-- `StartResult`'s `tuning.strings` entries. -/
structure StartStringInfo where
  stringNumber : ℕ
  note : String
  frequency : ℝ

/-- `StartResult`'s `tuning` field. -/
structure StartTuningInfo where
  id : String
  name : String
  description : String
  strings : List StartStringInfo

/-- Interface `StartResult`. -/
structure StartResult where
  success : Bool
  message : String
  tuning : Option StartTuningInfo
  error : Option String

/-- Interface `StopResult`. -/
structure StopResult where
  success : Bool
  message : String
  error : Option String

/-- Fields of `TuningSessionManager`.  The microphone handle is modelled by
presence (`mic : Option Unit`); `tunedStrings` (a JS `Set<number>`) is a
`Finset ℕ`. -/
structure ManagerState where
  session : Option TuningSession
  mic : Option Unit
  pitchDetector : Option PitchDetectorProcessor
  currentTuning : Option TuningPreset
  lastPitchResult : Option PitchResult
  stableString : Option ℕ
  stableStartTime : ℕ
  tunedStrings : Finset ℕ

/-- `STABLE_DURATION_MS = 400`. -/
def STABLE_DURATION_MS : ℕ := 400

/-- The freshly constructed manager. -/
def ManagerState.new : ManagerState :=
  { session := none
    mic := none
    pitchDetector := none
    currentTuning := none
    lastPitchResult := none
    stableString := none
    stableStartTime := 0
    tunedStrings := ∅ }

/-- `this.session?.active` truthiness test. -/
def sessionActive (st : ManagerState) : Prop :=
  ∃ s, st.session = some s ∧ s.active = true

instance (st : ManagerState) : Decidable (sessionActive st) := by
  unfold sessionActive
  cases h : st.session with
  | none => exact .isFalse (by simp)
  | some s => exact decidable_of_iff (s.active = true) (by simp)

/-- `cleanup()` (src/tuning/session-manager.ts lines 258-272): stop and drop
the microphone, reset and drop the pitch detector, clear tuning, session,
cached result and the tuned-string set.  Note that `stableString` and
`stableStartTime` are left untouched. -/
def cleanup (st : ManagerState) : ManagerState :=
  { st with
    mic := none
    pitchDetector := none
    currentTuning := none
    session := none
    lastPitchResult := none
    tunedStrings := ∅ }

/-- Outcome of the external resource acquisition performed by
`startSession` (sox check, pitchfinder import, `mic.start()`): either it
all succeeds or some step throws with a message. -/
inductive AcquireOutcome where
  | ok (algo : List ℝ → Option ℝ)
  | thrown (message : String)

/-- JavaScript `message.includes(pat)`. -/
def jsIncludes (s pat : String) : Prop :=
  ∃ a b, s.data = a ++ pat.data ++ b

noncomputable instance (s pat : String) : Decidable (jsIncludes s pat) :=
  Classical.propDecidable _

/-- `startSession(tuningId)` (src/tuning/session-manager.ts lines 44-157).
`now` is the millisecond clock used for `new Date()`.  On acquisition
failure all partially acquired resources are released (`cleanup`) and the
error message is classified. -/
noncomputable def startSession (env : AcquireOutcome) (now : ℕ)
    (tuningId : String) (st : ManagerState) : StartResult × ManagerState :=
  if h : sessionActive st then
    ({ success := false
       message := "A tuning session is already active."
       tuning := none
       error := some ("Stop the current session first. Currently tuning to: "
         ++ (h.choose).tuningName) }, st)
  else
    match getTuningById tuningId with
    | none =>
      ({ success := false
         message := "Unknown tuning: " ++ tuningId
         tuning := none
         error := some ("Available tunings: " ++ String.intercalate ", " getTuningIds) },
       st)
    | some tuning =>
      match env with
      | .thrown message =>
        let st' := cleanup st
        if jsIncludes message "sox" then
          ({ success := false, message := "sox is not installed"
             tuning := none, error := some "Install sox with: brew install sox" }, st')
        else if jsIncludes message "permission" ∨ jsIncludes message "access" then
          ({ success := false, message := "Microphone access denied"
             tuning := none
             error := some "Grant microphone permission in System Settings > Privacy & Security > Microphone" },
           st')
        else
          ({ success := false, message := "Failed to start tuning session"
             tuning := none, error := some message }, st')
      | .ok algo =>
        let st' :=
          { st with
            mic := some ()
            pitchDetector := some (initDetector algo (PitchDetectorProcessor.new 44100))
            currentTuning := some tuning
            session := some
              { active := true
                tuningId := tuning.id
                tuningName := tuning.name
                startedAt := now } }
        ({ success := true
           message := "Started tuning session for " ++ tuning.name
           tuning := some
             { id := tuning.id
               name := tuning.name
               description := tuning.description
               strings := tuning.strings.map (fun s =>
                 { stringNumber := s.stringNumber
                   note := s.note.name ++ toString s.note.octave
                   frequency := s.note.frequency }) }
           error := none }, st')

/-- `stopSession()` (src/tuning/session-manager.ts lines 159-175). -/
def stopSession (st : ManagerState) : StopResult × ManagerState :=
  match st.session with
  | none =>
    ({ success := false
       message := "No active tuning session"
       error := some "Call start_tuning first to begin a session." }, st)
  | some s =>
    if s.active then
      ({ success := true
         message := "Stopped tuning session for " ++ s.tuningName ++ ". Microphone released."
         error := none }, cleanup st)
    else
      ({ success := false
         message := "No active tuning session"
         error := some "Call start_tuning first to begin a session." }, st)

/-- The stability-tracker update performed by the `'audio'` event handler
(src/tuning/session-manager.ts lines 80-92) once the fresh `PitchResult`
has been cached. -/
def updateStability (r : PitchResult) (now : ℕ) (st : ManagerState) : ManagerState :=
  match r.closestString with
  | some currentString =>
    if st.stableString = some currentString then
      st
    else
      { st with stableString := some currentString, stableStartTime := now }
  | none => { st with stableString := none, stableStartTime := 0 }

/-- One `'audio'` event: cache the fresh result, then update the tracker. -/
def applyReading (st : ManagerState) (e : ℕ × PitchResult) : ManagerState :=
  updateStability e.2 e.1 { st with lastPitchResult := some e.2 }

/-- The full `'audio'` event handler (src/tuning/session-manager.ts lines
75-94): run the pitch detector, build a `PitchResult`, cache it, update
the stability tracker.  A detector exception would escape the handler; the
state is then left unchanged. -/
noncomputable def handleAudioBlock (samples : List ℝ) (now : ℕ)
    (st : ManagerState) : ManagerState :=
  match st.pitchDetector, st.currentTuning with
  | some det, some tuning =>
    match det.process samples with
    | .error _ => st
    | .ok (frequency, det') =>
      applyReading { st with pitchDetector := some det' }
        (now, createPitchResult frequency tuning)
  | _, _ => st

/-- A sequence of `'audio'` events folded through the handler's caching and
stability updates. -/
def foldReadings (st : ManagerState) (events : List (ℕ × PitchResult)) :
    ManagerState :=
  events.foldl applyReading st

/-- `waitForPitch`'s immediate no-session check plus its reset of the
stability tracker (src/tuning/session-manager.ts lines 178-189). -/
def waitForPitchEntry (st : ManagerState) : Except String ManagerState :=
  if sessionActive st then
    .ok { st with stableString := none, stableStartTime := 0 }
  else
    .error "No active tuning session. Call start_tuning first."

/-- The progress-annotated result resolved by `waitForPitch`. -/
structure ProgressResult where
  base : PitchResult
  tunedStrings : List ℕ
  tunedCount : ℕ
  totalStrings : ℕ
  allInTune : Bool

/-- `Array.from(set).sort((a, b) => b - a)`: the set's elements in
descending order. -/
def sortedDesc (s : Finset ℕ) : List ℕ := (s.sort (· ≤ ·)).reverse

/-- The PitchResult returned on timeout. -/
def timeoutResult : PitchResult :=
  { frequency := none
    noteName := none
    centsDeviation := 0
    closestString := none
    inTune := false
    tuningStatus := .flat
    advice := "Timed out waiting for a note. Play a string and hold it steady." }

/-- Outcome of one `checkStability` poll iteration inside `waitForPitch`. -/
inductive CheckOutcome where
  | timedOut (r : PitchResult)
  | errStopped
  | resolve (out : ProgressResult)
  | keepPolling

/-- One iteration of `checkStability` (src/tuning/session-manager.ts lines
192-244), evaluated at clock value `now`: timeout check, session-stopped
check, then the stable-pitch double-check; on success the in-tune string
is recorded and the progress fields are attached. -/
def checkStability (st : ManagerState) (now startTime timeoutMs : ℕ) :
    CheckOutcome × ManagerState :=
  if now - startTime > timeoutMs then
    (.timedOut timeoutResult, st)
  else if ¬ sessionActive st then
    (.errStopped, st)
  else
    match st.stableString, st.lastPitchResult with
    | some s, some r =>
      if st.stableStartTime > 0 ∧ now - st.stableStartTime ≥ STABLE_DURATION_MS ∧
          r.closestString = some s then
        let tuned' := if r.inTune then insert s st.tunedStrings else st.tunedStrings
        let st' := { st with tunedStrings := tuned' }
        (.resolve
          { base := r
            tunedStrings := sortedDesc tuned'
            tunedCount := tuned'.card
            totalStrings := 6
            allInTune := tuned'.card = 6 }, st')
      else
        (.keepPolling, st)
    | _, _ => (.keepPolling, st)

-- ---------------------------------------------------------------------------
-- Numeric toolbox: powers of two with rational exponents, cents bounds,
-- evaluation of the rounded note frequencies.
-- ---------------------------------------------------------------------------

/-- Invariant of the `for` loop of `findClosestString` after the strings in
`seen` have been inspected: `none` means every inspected string was farther
than 100 cents; `some c` records the best inspected string. -/
def AccInv (f : ℝ) (seen : List GuitarString) (acc : Option Cand) : Prop :=
  match acc with
  | none => ∀ gs ∈ seen, ¬ (|calculateCents f gs.note.frequency| ≤ 100)
  | some c =>
    (∃ gs ∈ seen, c.stringNumber = gs.stringNumber ∧
      c.noteName = gs.note.name ++ toString gs.note.octave ∧
      c.absCents = |calculateCents f gs.note.frequency| ∧
      |calculateCents f gs.note.frequency| ≤ 100) ∧
    ∀ gs ∈ seen, |calculateCents f gs.note.frequency| ≤ 100 →
      c.absCents ≤ |calculateCents f gs.note.frequency|

/-- `pat` occurs as a contiguous substring of `s`. -/
def strContains (s pat : String) : Prop :=
  ∃ a b, s.data = a ++ pat.data ++ b

/-- A concrete active manager state with a non-trivial stability tracker
and one string already marked tuned. -/
noncomputable def exampleActiveState : ManagerState :=
  { session := some
      { active := true, tuningId := "standard", tuningName := "Standard", startedAt := 0 }
    mic := some ()
    pitchDetector := some (PitchDetectorProcessor.new 44100)
    currentTuning := some standardPreset
    lastPitchResult := none
    stableString := some 5
    stableStartTime := 1000
    tunedStrings := {5} }

/-- A cached in-tune reading for string 5 (A2 at 110 Hz). -/
noncomputable def exampleInTuneResult : PitchResult :=
  { frequency := some 110
    noteName := some "A2"
    centsDeviation := 0
    closestString := some 5
    inTune := true
    tuningStatus := .inTune
    advice := "String 5 (A2) is in tune!" }

/-- A concrete manager state in which string 5 has been stable since
t=100 and strings 1,2,3,4,6 are already tuned. -/
noncomputable def exampleWaitState : ManagerState :=
  { session := some
      { active := true, tuningId := "standard", tuningName := "Standard", startedAt := 0 }
    mic := some ()
    pitchDetector := none
    currentTuning := some standardPreset
    lastPitchResult := some exampleInTuneResult
    stableString := some 5
    stableStartTime := 100
    tunedStrings := {1, 2, 3, 4, 6} }

/-- A concrete initialised detector remembering 110 Hz, whose oracle always
reports 2000 Hz (outside the guitar range). -/
noncomputable def exampleDetector : PitchDetectorProcessor :=
  { detectPitch := some (fun _ => some 2000)
    sampleRate := 44100
    accumulatedSamples := []
    bufferSize := 4096
    rmsThreshold := 1/100
    lastFrequency := some 110 }

lemma le_two_rpow_div_iff (n : ℤ) (d : ℕ) (hd : d ≠ 0) (x : ℝ) (hx : 0 < x) :
    x ≤ (2:ℝ) ^ ((n:ℝ)/(d:ℝ)) ↔ x ^ d ≤ (2:ℝ) ^ n := by
  have h2 : (0:ℝ) ≤ (2:ℝ) ^ ((n:ℝ)/(d:ℝ)) := (Real.rpow_pos_of_pos two_pos _).le
  have hdR : ((d:ℕ):ℝ) ≠ 0 := Nat.cast_ne_zero.mpr hd
  have e : ((2:ℝ) ^ ((n:ℝ)/(d:ℝ))) ^ d = (2:ℝ) ^ n := by
    rw [← Real.rpow_natCast ((2:ℝ) ^ ((n:ℝ)/(d:ℝ))) d,
      ← Real.rpow_mul (by norm_num : (0:ℝ) ≤ 2), div_mul_cancel₀ _ hdR,
      Real.rpow_intCast]
  rw [← pow_le_pow_iff_left₀ hx.le h2 hd, e]

lemma two_rpow_div_le_iff (n : ℤ) (d : ℕ) (hd : d ≠ 0) (x : ℝ) (hx : 0 < x) :
    (2:ℝ) ^ ((n:ℝ)/(d:ℝ)) ≤ x ↔ (2:ℝ) ^ n ≤ x ^ d := by
  have h2 : (0:ℝ) ≤ (2:ℝ) ^ ((n:ℝ)/(d:ℝ)) := (Real.rpow_pos_of_pos two_pos _).le
  have hdR : ((d:ℕ):ℝ) ≠ 0 := Nat.cast_ne_zero.mpr hd
  have e : ((2:ℝ) ^ ((n:ℝ)/(d:ℝ))) ^ d = (2:ℝ) ^ n := by
    rw [← Real.rpow_natCast ((2:ℝ) ^ ((n:ℝ)/(d:ℝ))) d,
      ← Real.rpow_mul (by norm_num : (0:ℝ) ≤ 2), div_mul_cancel₀ _ hdR,
      Real.rpow_intCast]
  rw [← pow_le_pow_iff_left₀ h2 hx.le hd, e]

lemma lt_two_rpow_div_iff (n : ℤ) (d : ℕ) (hd : d ≠ 0) (x : ℝ) (hx : 0 < x) :
    x < (2:ℝ) ^ ((n:ℝ)/(d:ℝ)) ↔ x ^ d < (2:ℝ) ^ n := by
  constructor
  · intro h
    by_contra hc
    exact absurd ((two_rpow_div_le_iff n d hd x hx).mpr (not_lt.mp hc)) (not_le.mpr h)
  · intro h
    by_contra hc
    exact absurd ((two_rpow_div_le_iff n d hd x hx).mp (not_lt.mp hc)) (not_le.mpr h)

lemma two_rpow_div_lt_iff (n : ℤ) (d : ℕ) (hd : d ≠ 0) (x : ℝ) (hx : 0 < x) :
    (2:ℝ) ^ ((n:ℝ)/(d:ℝ)) < x ↔ (2:ℝ) ^ n < x ^ d := by
  constructor
  · intro h
    by_contra hc
    exact absurd ((le_two_rpow_div_iff n d hd x hx).mpr (not_lt.mp hc)) (not_le.mpr h)
  · intro h
    by_contra hc
    exact absurd ((le_two_rpow_div_iff n d hd x hx).mp (not_lt.mp hc)) (not_le.mpr h)

lemma calculateCents_le_100_iff (f t : ℝ) (hf : 0 < f) (ht : 0 < t) :
    calculateCents f t ≤ 100 ↔ f ^ 12 ≤ 2 * t ^ 12 := by
  unfold calculateCents
  have hft : 0 < f / t := div_pos hf ht
  have h1 : 1200 * Real.logb 2 (f/t) ≤ 100 ↔ Real.logb 2 (f/t) ≤ (1:ℝ)/12 := by
    constructor <;> intro h <;> linarith
  have e : ((1:ℝ)/12) = (((1:ℤ)):ℝ)/(((12:ℕ)):ℝ) := by norm_num
  rw [h1, Real.logb_le_iff_le_rpow one_lt_two hft, e,
    le_two_rpow_div_iff 1 12 (by norm_num) _ hft, zpow_one, div_pow,
    div_le_iff₀ (pow_pos ht 12)]

lemma calculateCents_antisymm (f t : ℝ) (hf : 0 < f) (ht : 0 < t) :
    calculateCents f t = -calculateCents t f := by
  unfold calculateCents
  rw [Real.logb_div hf.ne' ht.ne', Real.logb_div ht.ne' hf.ne']
  ring

lemma abs_calculateCents_le_100_iff (f t : ℝ) (hf : 0 < f) (ht : 0 < t) :
    |calculateCents f t| ≤ 100 ↔ f ^ 12 ≤ 2 * t ^ 12 ∧ t ^ 12 ≤ 2 * f ^ 12 := by
  rw [abs_le]
  have h2 : -100 ≤ calculateCents f t ↔ t ^ 12 ≤ 2 * f ^ 12 := by
    rw [calculateCents_antisymm f t hf ht,
      show (-100:ℝ) = -(100:ℝ) by norm_num, neg_le_neg_iff,
      calculateCents_le_100_iff t f ht hf]
  rw [calculateCents_le_100_iff f t hf ht, h2, and_comm]

lemma jsRound_eq (x : ℝ) (N : ℤ) (h1 : (N:ℝ) - 1/2 ≤ x) (h2 : x < (N:ℝ) + 1/2) :
    jsRound x = N := by
  unfold jsRound
  rw [Int.floor_eq_iff]
  refine ⟨by linarith, by linarith⟩

/-- Evaluates `Math.round(midiToFrequency(m) * 100)` from two rational
12th-power bounds on `2^(m-69)`. -/
lemma midi_round_eq (m N : ℤ) (h0 : (0:ℝ) < 2*(N:ℝ) - 1)
    (low : ((2*(N:ℝ)-1)/88000)^12 ≤ (2:ℝ) ^ (m - 69 : ℤ))
    (high : (2:ℝ) ^ (m - 69 : ℤ) < ((2*(N:ℝ)+1)/88000)^12) :
    jsRound (midiToFrequency m * 100) = N := by
  have hd : (12:ℕ) ≠ 0 := by norm_num
  have hx1 : (0:ℝ) < (2*(N:ℝ)-1)/88000 := div_pos h0 (by norm_num)
  have hx2 : (0:ℝ) < (2*(N:ℝ)+1)/88000 := div_pos (by linarith) (by norm_num)
  have b1 : (2*(N:ℝ)-1)/88000 ≤ (2:ℝ) ^ ((((m - 69 : ℤ)):ℝ)/(((12:ℕ)):ℝ)) :=
    (le_two_rpow_div_iff (m-69) 12 hd _ hx1).mpr low
  have b2 : (2:ℝ) ^ ((((m - 69 : ℤ)):ℝ)/(((12:ℕ)):ℝ)) < (2*(N:ℝ)+1)/88000 :=
    (two_rpow_div_lt_iff (m-69) 12 hd _ hx2).mpr high
  have e : ((m:ℝ) - ((A4_MIDI:ℤ):ℝ))/12 = (((m - 69 : ℤ)):ℝ)/(((12:ℕ)):ℝ) := by
    unfold A4_MIDI
    push_cast
    ring
  unfold midiToFrequency A4_FREQUENCY
  rw [e]
  apply jsRound_eq
  · linarith
  · linarith

lemma note_freq (nm : String) (oc m N : ℤ)
    (h : jsRound (midiToFrequency m * 100) = N) :
    (note nm oc m).frequency = (N:ℝ)/100 := by
  simp [note, h]

lemma round40 : jsRound (midiToFrequency 40 * 100) = 8241 :=
  midi_round_eq 40 8241 (by norm_num) (by norm_num) (by norm_num)

lemma round45 : jsRound (midiToFrequency 45 * 100) = 11000 :=
  midi_round_eq 45 11000 (by norm_num) (by norm_num) (by norm_num)

lemma round50 : jsRound (midiToFrequency 50 * 100) = 14683 :=
  midi_round_eq 50 14683 (by norm_num) (by norm_num) (by norm_num)

lemma round55 : jsRound (midiToFrequency 55 * 100) = 19600 :=
  midi_round_eq 55 19600 (by norm_num) (by norm_num) (by norm_num)

lemma round59 : jsRound (midiToFrequency 59 * 100) = 24694 :=
  midi_round_eq 59 24694 (by norm_num) (by norm_num) (by norm_num)

lemma round64 : jsRound (midiToFrequency 64 * 100) = 32963 :=
  midi_round_eq 64 32963 (by norm_num) (by norm_num) (by norm_num)

lemma round69 : jsRound (midiToFrequency 69 * 100) = 44000 :=
  midi_round_eq 69 44000 (by norm_num) (by norm_num) (by norm_num)

-- ---------------------------------------------------------------------------
-- The scanning loop of findClosestString: invariant and consequences.
-- ---------------------------------------------------------------------------

lemma findStep_inv (f : ℝ) (seen : List GuitarString) (acc : Option Cand)
    (gs : GuitarString) (h : AccInv f seen acc) :
    AccInv f (seen ++ [gs]) (findStep f acc gs) := by
  unfold findStep
  by_cases hc : candBound acc |calculateCents f gs.note.frequency| ∧
      |calculateCents f gs.note.frequency| ≤ 100
  · rw [if_pos hc]
    constructor
    · exact ⟨gs, by simp, rfl, rfl, rfl, hc.2⟩
    · intro gs' hmem hle
      rcases List.mem_append.mp hmem with hseen | hlast
      · cases acc with
        | none => exact absurd hle (h gs' hseen)
        | some c =>
          exact le_trans (le_of_lt hc.1) (h.2 gs' hseen hle)
      · have : gs' = gs := by simpa using hlast
        subst this
        exact le_refl _
  · rw [if_neg hc]
    cases acc with
    | none =>
      intro gs' hmem
      rcases List.mem_append.mp hmem with hseen | hlast
      · exact h gs' hseen
      · have : gs' = gs := by simpa using hlast
        subst this
        intro hle
        exact hc ⟨trivial, hle⟩
    | some c =>
      constructor
      · obtain ⟨gs0, hmem0, hrest⟩ := h.1
        exact ⟨gs0, List.mem_append.mpr (Or.inl hmem0), hrest⟩
      · intro gs' hmem hle
        rcases List.mem_append.mp hmem with hseen | hlast
        · exact h.2 gs' hseen hle
        · have : gs' = gs := by simpa using hlast
          subst this
          have : ¬ (|calculateCents f gs'.note.frequency| < c.absCents) := by
            intro hlt
            exact hc ⟨hlt, hle⟩
          exact le_of_not_lt this

lemma foldl_findStep_inv (f : ℝ) :
    ∀ (l seen : List GuitarString) (acc : Option Cand),
      AccInv f seen acc → AccInv f (seen ++ l) (l.foldl (findStep f) acc) := by
  intro l
  induction l with
  | nil =>
    intro seen acc h
    simpa using h
  | cons gs l ih =>
    intro seen acc h
    have h2 := ih (seen ++ [gs]) _ (findStep_inv f seen acc gs h)
    simpa [List.append_assoc] using h2

lemma fold_spec (f : ℝ) (tuning : TuningPreset) :
    AccInv f tuning.strings (tuning.strings.foldl (findStep f) none) := by
  have h0 : AccInv f [] none := by
    intro gs hmem
    simp at hmem
  simpa using foldl_findStep_inv f tuning.strings [] none h0

lemma findClosestString_eq_none_of_all_far (f : ℝ) (tuning : TuningPreset)
    (h : ∀ gs ∈ tuning.strings, ¬ (|calculateCents f gs.note.frequency| ≤ 100)) :
    findClosestString f tuning = none := by
  unfold findClosestString
  split_ifs with hr
  · rfl
  · cases hfold : tuning.strings.foldl (findStep f) none with
    | none => rfl
    | some c =>
      have hinv := fold_spec f tuning
      rw [hfold] at hinv
      obtain ⟨⟨gs, hmem, _, _, _, hle⟩, _⟩ := hinv
      exact absurd hle (h gs hmem)

-- Rounded frequencies of the standard-tuning notes.

lemma freqE2 : (note "E" 2 40).frequency = 8241/100 := by
  have h := note_freq "E" 2 40 8241 round40
  norm_num at h
  exact h

lemma freqA2 : (note "A" 2 45).frequency = 110 := by
  have h := note_freq "A" 2 45 11000 round45
  norm_num at h
  exact h

lemma freqD3 : (note "D" 3 50).frequency = 14683/100 := by
  have h := note_freq "D" 3 50 14683 round50
  norm_num at h
  exact h

lemma freqG3 : (note "G" 3 55).frequency = 196 := by
  have h := note_freq "G" 3 55 19600 round55
  norm_num at h
  exact h

lemma freqB3 : (note "B" 3 59).frequency = 24694/100 := by
  have h := note_freq "B" 3 59 24694 round59
  norm_num at h
  rw [h]
  norm_num

lemma freqE4 : (note "E" 4 64).frequency = 32963/100 := by
  have h := note_freq "E" 4 64 32963 round64
  norm_num at h
  exact h

-- ---------------------------------------------------------------------------
-- Claims C3 and C1: the frequency matcher.
-- ---------------------------------------------------------------------------

/-- C3: for every frequency `f` and tuning, `findClosestString` returns
`none` when `f` is outside the 70-1500 Hz range; inside the range it
returns `none` exactly when no string of the tuning lies within 100 cents
of `f`, and any returned match is a string of the tuning within 100 cents
whose absolute cents deviation is smallest among the strings within
100 cents. -/
theorem c3_matchString_range_and_tolerance (f : ℝ) (tuning : TuningPreset) :
    ((f < GUITAR_FREQ_MIN ∨ f > GUITAR_FREQ_MAX) → findClosestString f tuning = none) ∧
    ((∀ gs ∈ tuning.strings, ¬ (|calculateCents f gs.note.frequency| ≤ 100)) →
      findClosestString f tuning = none) ∧
    (findClosestString f tuning = none →
      (f < GUITAR_FREQ_MIN ∨ f > GUITAR_FREQ_MAX) ∨
      ∀ gs ∈ tuning.strings, ¬ (|calculateCents f gs.note.frequency| ≤ 100)) ∧
    (∀ r, findClosestString f tuning = some r →
      ∃ gs ∈ tuning.strings, r.stringNumber = gs.stringNumber ∧
        |calculateCents f gs.note.frequency| ≤ 100 ∧
        ∀ gs' ∈ tuning.strings, |calculateCents f gs'.note.frequency| ≤ 100 →
          |calculateCents f gs.note.frequency| ≤ |calculateCents f gs'.note.frequency|) := by
  refine ⟨?_, ?_, ?_, ?_⟩
  · intro h
    unfold findClosestString
    rw [if_pos h]
  · exact findClosestString_eq_none_of_all_far f tuning
  · intro hnone
    by_cases hr : f < GUITAR_FREQ_MIN ∨ f > GUITAR_FREQ_MAX
    · exact Or.inl hr
    · refine Or.inr ?_
      unfold findClosestString at hnone
      rw [if_neg hr] at hnone
      cases hfold : tuning.strings.foldl (findStep f) none with
      | none =>
        have hinv := fold_spec f tuning
        rw [hfold] at hinv
        exact hinv
      | some c =>
        rw [hfold] at hnone
        dsimp only at hnone
        have hinv := fold_spec f tuning
        rw [hfold] at hinv
        obtain ⟨⟨gs, hmem, hnum, _, _, hle⟩, _⟩ := hinv
        cases hfind : tuning.strings.find? (fun s => s.stringNumber == c.stringNumber) with
        | none =>
          have := List.find?_eq_none.mp hfind gs hmem
          simp [hnum] at this
        | some ts =>
          rw [hfind] at hnone
          simp at hnone
  · intro r hr
    unfold findClosestString at hr
    by_cases hrange : f < GUITAR_FREQ_MIN ∨ f > GUITAR_FREQ_MAX
    · rw [if_pos hrange] at hr
      exact absurd hr (by simp)
    · rw [if_neg hrange] at hr
      cases hfold : tuning.strings.foldl (findStep f) none with
      | none =>
        rw [hfold] at hr
        exact absurd hr (by simp)
      | some c =>
        rw [hfold] at hr
        dsimp only at hr
        have hinv := fold_spec f tuning
        rw [hfold] at hinv
        obtain ⟨⟨gs, hmem, hnum, hname, habs, hle⟩, hmin⟩ := hinv
        cases hfind : tuning.strings.find? (fun s => s.stringNumber == c.stringNumber) with
        | none =>
          have := List.find?_eq_none.mp hfind gs hmem
          simp [hnum] at this
        | some ts =>
          rw [hfind] at hr
          simp only [Option.some.injEq] at hr
          refine ⟨gs, hmem, ?_, hle, ?_⟩
          · rw [← hr]
            exact hnum
          · intro gs' hmem' hle'
            have := hmin gs' hmem' hle'
            rw [habs] at this
            exact this

/-- C3 witness: a concrete out-of-range frequency is rejected. -/
theorem c3_witness :
    ((50:ℝ) < GUITAR_FREQ_MIN ∨ (50:ℝ) > GUITAR_FREQ_MAX) ∧
    findClosestString 50 standardPreset = none := by
  have h : (50:ℝ) < GUITAR_FREQ_MIN ∨ (50:ℝ) > GUITAR_FREQ_MAX := by
    left
    unfold GUITAR_FREQ_MIN
    norm_num
  exact ⟨h, (c3_matchString_range_and_tolerance 50 standardPreset).1 h⟩

/-- C1: the claim asserts that `matchString` applies octave correction, and
that `matchString(329.63/2, standard)` returns string 1 with corrected
frequency 329.63.  The code has no octave-correction step: at the
failing input 329.63/2 ≈ 164.8 Hz (within the 70-1500 Hz range) every
standard-tuning string is farther than 100 cents and `findClosestString`
returns `none`, contradicting the claim and the repository's own tests. -/
theorem c1_no_octave_correction_at_half_e4 :
    findClosestString (329.63/2) standardPreset = none := by
  apply findClosestString_eq_none_of_all_far
  intro gs hmem
  simp only [standardPreset, List.mem_cons, List.not_mem_nil, or_false] at hmem
  rcases hmem with h | h | h | h | h | h <;> subst h <;>
    simp only [freqE2, freqA2, freqD3, freqG3, freqB3, freqE4] <;>
    rw [abs_calculateCents_le_100_iff _ _ (by norm_num) (by norm_num)] <;>
    norm_num

-- ---------------------------------------------------------------------------
-- String containment helpers (for the advice texts).
-- ---------------------------------------------------------------------------

lemma string_data_append (s t : String) : (s ++ t).data = s.data ++ t.data := by
  cases s
  cases t
  rfl

-- ---------------------------------------------------------------------------
-- Claim C7: derived note frequencies.
-- ---------------------------------------------------------------------------

/-- C7: the frequency of a constructed note is `440 * 2^((i-69)/12)` rounded
to 2 decimal places; index 69 gives 440.00, index 40 gives 82.41, and
index 64 gives 329.63. -/
theorem c7_note_frequency_formula :
    (∀ (nm : String) (oc m : ℤ),
      (note nm oc m).frequency =
        (jsRound (440 * (2:ℝ) ^ (((m:ℝ) - 69)/12) * 100) : ℝ) / 100) ∧
    (note "A" 4 69).frequency = 440 ∧
    (note "E" 2 40).frequency = 82.41 ∧
    (note "E" 4 64).frequency = 329.63 := by
  refine ⟨?_, ?_, ?_, ?_⟩
  · intro nm oc m
    norm_num [note, midiToFrequency, A4_FREQUENCY, A4_MIDI]
  · have h := note_freq "A" 4 69 44000 round69
    norm_num at h
    exact h
  · rw [freqE2]
    norm_num
  · rw [freqE4]
    norm_num

-- ---------------------------------------------------------------------------
-- Claim C8: every catalog tuning has six strings with positions 1..6.
-- ---------------------------------------------------------------------------

lemma preset_positions : ∀ t ∈ TUNING_PRESETS,
    t.strings.length = 6 ∧
    (t.strings.map (fun s => s.stringNumber)).Perm [1, 2, 3, 4, 5, 6] := by
  intro t ht
  simp only [TUNING_PRESETS, List.mem_cons, List.not_mem_nil, or_false] at ht
  rcases ht with h | h | h | h | h | h <;> subst h <;> exact ⟨rfl, by decide⟩

/-- C8: every preset in the catalog, every preset reachable through
`getTuningById`, has exactly six strings whose positions are a permutation
of 1..6; and every id listed by `getTuningIds` resolves to a preset. -/
theorem c8_presets_six_distinct_positions :
    (∀ t ∈ TUNING_PRESETS,
      t.strings.length = 6 ∧
      (t.strings.map (fun s => s.stringNumber)).Perm [1, 2, 3, 4, 5, 6]) ∧
    (∀ id t, getTuningById id = some t →
      t.strings.length = 6 ∧
      (t.strings.map (fun s => s.stringNumber)).Perm [1, 2, 3, 4, 5, 6]) ∧
    (∀ id ∈ getTuningIds, ∃ t, getTuningById id = some t) := by
  refine ⟨preset_positions, ?_, ?_⟩
  · intro id t h
    exact preset_positions t (List.mem_of_find?_eq_some h)
  · intro id hid
    simp only [getTuningIds, List.mem_map] at hid
    obtain ⟨t, ht, hteq⟩ := hid
    have : (getTuningById id).isSome := by
      apply List.find?_isSome.mpr
      exact ⟨t, ht, by simp [hteq]⟩
    exact Option.isSome_iff_exists.mp this

/-- C8 witness: the standard preset itself satisfies the property. -/
theorem c8_witness :
    standardPreset.strings.length = 6 ∧
    (standardPreset.strings.map (fun s => s.stringNumber)).Perm [1, 2, 3, 4, 5, 6] :=
  c8_presets_six_distinct_positions.1 standardPreset (by simp [TUNING_PRESETS])

-- ---------------------------------------------------------------------------
-- Claim C9: classification thresholds and advice direction.
-- ---------------------------------------------------------------------------

/-- C9: `getTuningStatus` classifies |cents| ≤ 5 as in-tune, cents < -5 as
flat and cents > 5 as sharp; the advice for a flat matched result contains
"Tune UP (tighten)." and for a sharp one "Tune DOWN (loosen).", and both
name the string number and the note. -/
theorem c9_classify_and_advice :
    (∀ c : ℝ, |c| ≤ 5 → getTuningStatus c = .inTune) ∧
    (∀ c : ℝ, c < -5 → getTuningStatus c = .flat) ∧
    (∀ c : ℝ, c > 5 → getTuningStatus c = .sharp) ∧
    (∀ (c : ℝ) (n : ℕ) (nm : String), getTuningStatus c = .flat →
      strContains (generateAdvice (getTuningStatus c) c (some n) (some nm))
        "Tune UP (tighten)." ∧
      strContains (generateAdvice (getTuningStatus c) c (some n) (some nm))
        ("String " ++ toString n) ∧
      strContains (generateAdvice (getTuningStatus c) c (some n) (some nm)) nm) ∧
    (∀ (c : ℝ) (n : ℕ) (nm : String), getTuningStatus c = .sharp →
      strContains (generateAdvice (getTuningStatus c) c (some n) (some nm))
        "Tune DOWN (loosen)." ∧
      strContains (generateAdvice (getTuningStatus c) c (some n) (some nm))
        ("String " ++ toString n) ∧
      strContains (generateAdvice (getTuningStatus c) c (some n) (some nm)) nm) := by
  have habs : ∀ c : ℝ, c < -5 ∨ c > 5 → ¬ (|c| ≤ IN_TUNE_THRESHOLD) := by
    intro c hc
    unfold IN_TUNE_THRESHOLD
    rcases hc with h | h
    · have : 5 < |c| := lt_abs.mpr (Or.inr (by linarith))
      linarith
    · have : 5 < |c| := lt_abs.mpr (Or.inl h)
      linarith
  refine ⟨?_, ?_, ?_, ?_, ?_⟩
  · intro c hc
    unfold getTuningStatus IN_TUNE_THRESHOLD
    rw [if_pos hc]
  · intro c hc
    unfold getTuningStatus
    rw [if_neg (habs c (Or.inl hc)), if_pos (by linarith : c < 0)]
  · intro c hc
    unfold getTuningStatus
    rw [if_neg (habs c (Or.inr hc)), if_neg (by linarith : ¬ c < 0)]
  · intro c n nm h
    rw [h]
    unfold generateAdvice
    refine ⟨?_, ?_, ?_⟩
    · refine ⟨("String " ++ toString n ++ " (" ++ nm ++ ")" ++ " is "
        ++ toString ((jsRound c).natAbs) ++ " cents flat. ").data, [], ?_⟩
      simp [string_data_append, List.append_assoc]
    · refine ⟨[], (" (" ++ nm ++ ")" ++ " is "
        ++ toString ((jsRound c).natAbs) ++ " cents flat. Tune UP (tighten).").data, ?_⟩
      simp only [string_data_append, List.append_assoc, List.nil_append]
    · refine ⟨("String " ++ toString n ++ " (").data, (")" ++ " is "
        ++ toString ((jsRound c).natAbs) ++ " cents flat. Tune UP (tighten).").data, ?_⟩
      simp only [string_data_append, List.append_assoc]
  · intro c n nm h
    rw [h]
    unfold generateAdvice
    refine ⟨?_, ?_, ?_⟩
    · refine ⟨("String " ++ toString n ++ " (" ++ nm ++ ")" ++ " is "
        ++ toString ((jsRound c).natAbs) ++ " cents sharp. ").data, [], ?_⟩
      simp [string_data_append, List.append_assoc]
    · refine ⟨[], (" (" ++ nm ++ ")" ++ " is "
        ++ toString ((jsRound c).natAbs) ++ " cents sharp. Tune DOWN (loosen).").data, ?_⟩
      simp only [string_data_append, List.append_assoc, List.nil_append]
    · refine ⟨("String " ++ toString n ++ " (").data, (")" ++ " is "
        ++ toString ((jsRound c).natAbs) ++ " cents sharp. Tune DOWN (loosen).").data, ?_⟩
      simp only [string_data_append, List.append_assoc]

/-- C9 witness: concrete classifications and a concrete flat advice. -/
theorem c9_witness :
    (|(3:ℝ)| ≤ 5 ∧ getTuningStatus 3 = .inTune) ∧
    ((20:ℝ) > 5 ∧ getTuningStatus 20 = .sharp) ∧
    ((-7:ℝ) < -5 ∧
      strContains (generateAdvice (getTuningStatus (-7)) (-7) (some 5) (some "A2"))
        "Tune UP (tighten).") := by
  refine ⟨⟨by norm_num, c9_classify_and_advice.1 3 (by norm_num)⟩,
    ⟨by norm_num, c9_classify_and_advice.2.2.1 20 (by norm_num)⟩,
    ⟨by norm_num, ?_⟩⟩
  exact (c9_classify_and_advice.2.2.2.1 (-7) 5 "A2"
    (c9_classify_and_advice.2.1 (-7) (by norm_num))).1

-- ---------------------------------------------------------------------------
-- Session-manager helpers and example states.
-- ---------------------------------------------------------------------------

lemma sortedDesc_sorted (s : Finset ℕ) : List.Sorted (· ≥ ·) (sortedDesc s) := by
  unfold sortedDesc
  rw [List.Sorted, List.pairwise_reverse]
  exact Finset.sort_sorted (· ≤ ·) s

lemma mem_sortedDesc (s : Finset ℕ) (a : ℕ) : a ∈ sortedDesc s ↔ a ∈ s := by
  unfold sortedDesc
  rw [List.mem_reverse, Finset.mem_sort]

lemma foldReadings_append (st : ManagerState) (l : List (ℕ × PitchResult))
    (e : ℕ × PitchResult) :
    foldReadings st (l ++ [e]) = applyReading (foldReadings st l) e := by
  simp [foldReadings, List.foldl_append]

lemma updateStability_none (r : PitchResult) (now : ℕ) (st : ManagerState)
    (h : r.closestString = none) :
    (updateStability r now st).stableString = none := by
  simp [updateStability, h]

lemma updateStability_same (r : PitchResult) (now : ℕ) (st : ManagerState)
    (c : ℕ) (h : r.closestString = some c) (h2 : st.stableString = some c) :
    updateStability r now st = st := by
  simp [updateStability, h, h2]

lemma updateStability_diff (r : PitchResult) (now : ℕ) (st : ManagerState)
    (c : ℕ) (h : r.closestString = some c) (h2 : ¬ st.stableString = some c) :
    (updateStability r now st).stableString = some c ∧
    (updateStability r now st).stableStartTime = now := by
  simp [updateStability, h, h2]

/-- If after a strictly time-increasing sequence of audio readings the
tracker holds string `s` since time `t0`, then every reading delivered at
or after `t0` matched string `s`: the tracker's start time marks the start
of an unbroken run of the same string. -/
lemma stability_run (events : List (ℕ × PitchResult)) :
    ∀ (st : ManagerState) (s t0 : ℕ),
      List.Pairwise (fun a b => a.1 < b.1) events →
      (foldReadings st events).stableString = some s →
      (foldReadings st events).stableStartTime = t0 →
      ∀ e ∈ events, t0 ≤ e.1 → e.2.closestString = some s := by
  induction events using List.reverseRecOn with
  | nil =>
    intro st s t0 _ _ _ e he
    simp at he
  | append_singleton l e ih =>
    intro st s t0 hpw hstable htime e' he' ht0
    obtain ⟨hpl, -, hrel⟩ := List.pairwise_append.mp hpw
    rw [foldReadings_append] at hstable htime
    have hmid : applyReading (foldReadings st l) e =
        updateStability e.2 e.1
          { foldReadings st l with lastPitchResult := some e.2 } := rfl
    rw [hmid] at hstable htime
    cases hc : e.2.closestString with
    | none =>
      rw [updateStability_none e.2 e.1 _ hc] at hstable
      exact absurd hstable (by simp)
    | some c =>
      by_cases hsame : (foldReadings st l).stableString = some c
      · have hupd := updateStability_same e.2 e.1
          { foldReadings st l with lastPitchResult := some e.2 } c hc
          (by simpa using hsame)
        rw [hupd] at hstable htime
        simp only at hstable htime
        have hcs : c = s := by
          rw [hsame] at hstable
          simpa using hstable
        rcases List.mem_append.mp he' with hl | hlast
        · exact ih st s t0 hpl hstable htime e' hl ht0
        · have he : e' = e := by simpa using hlast
          subst he
          rw [hc, hcs]
      · have hupd := updateStability_diff e.2 e.1
          { foldReadings st l with lastPitchResult := some e.2 } c hc
          (by simpa using hsame)
        rw [hupd.1] at hstable
        have hcs : c = s := by simpa using hstable
        rw [hupd.2] at htime
        rcases List.mem_append.mp he' with hl | hlast
        · have hlt : e'.1 < e.1 := hrel e' hl e (by simp)
          rw [htime] at hlt
          exact absurd ht0 (not_le.mpr hlt)
        · have he : e' = e := by simpa using hlast
          subst he
          rw [hc, hcs]

-- ---------------------------------------------------------------------------
-- Claim C2: what stop() releases and clears.
-- ---------------------------------------------------------------------------

/-- C2 counterexample: on a concrete active session whose stability tracker
holds string 5 since t=1000, `stopSession` succeeds but the tracker is NOT
cleared, contradicting the claim that stop clears the held string and its
start time. -/
theorem c2_counterexample_tracker_survives_stop :
    (stopSession exampleActiveState).1.success = true ∧
    (stopSession exampleActiveState).2.stableString = some 5 ∧
    (stopSession exampleActiveState).2.stableStartTime = 1000 :=
  ⟨rfl, rfl, rfl⟩

/-- C2 (amended): for every active session, stop() succeeds and reports the
tuning that was active, releases the audio source and the pitch estimator,
clears the session record, the cached last PitchResult and the
tuned-string set; the stability tracker (held string, start time) is left
unchanged. -/
theorem c2_stop_releases_and_clears (st : ManagerState) (s : TuningSession)
    (hs : st.session = some s) (ha : s.active = true) :
    stopSession st =
      ({ success := true
         message := "Stopped tuning session for " ++ s.tuningName ++ ". Microphone released."
         error := none }, cleanup st) ∧
    (cleanup st).mic = none ∧
    (cleanup st).pitchDetector = none ∧
    (cleanup st).session = none ∧
    (cleanup st).lastPitchResult = none ∧
    (cleanup st).currentTuning = none ∧
    (cleanup st).tunedStrings = ∅ ∧
    (cleanup st).stableString = st.stableString ∧
    (cleanup st).stableStartTime = st.stableStartTime := by
  refine ⟨?_, rfl, rfl, rfl, rfl, rfl, rfl, rfl, rfl⟩
  unfold stopSession
  rw [hs]
  dsimp only
  rw [ha]
  simp

/-- C2 witness: the amended statement at the concrete active state. -/
theorem c2_witness :
    stopSession exampleActiveState =
      ({ success := true
         message := "Stopped tuning session for " ++ "Standard" ++ ". Microphone released."
         error := none }, cleanup exampleActiveState) ∧
    (cleanup exampleActiveState).mic = none ∧
    (cleanup exampleActiveState).pitchDetector = none ∧
    (cleanup exampleActiveState).session = none ∧
    (cleanup exampleActiveState).lastPitchResult = none ∧
    (cleanup exampleActiveState).currentTuning = none ∧
    (cleanup exampleActiveState).tunedStrings = ∅ ∧
    (cleanup exampleActiveState).stableString = exampleActiveState.stableString ∧
    (cleanup exampleActiveState).stableStartTime = exampleActiveState.stableStartTime :=
  c2_stop_releases_and_clears exampleActiveState
    { active := true, tuningId := "standard", tuningName := "Standard", startedAt := 0 }
    rfl rfl

-- ---------------------------------------------------------------------------
-- Claim C5: state errors.
-- ---------------------------------------------------------------------------

/-- C5: starting while a session is active fails with the "already active"
message naming the current tuning and leaves the state unchanged; stopping
or entering waitForPitch with no active session fails immediately with the
"no active session" condition, leaving the state unchanged. -/
theorem c5_state_errors (st : ManagerState) :
    (∀ (env : AcquireOutcome) (now : ℕ) (id : String) (s : TuningSession),
      st.session = some s → s.active = true →
      startSession env now id st =
        ({ success := false
           message := "A tuning session is already active."
           tuning := none
           error := some ("Stop the current session first. Currently tuning to: "
             ++ s.tuningName) }, st)) ∧
    (¬ sessionActive st →
      stopSession st =
        ({ success := false
           message := "No active tuning session"
           error := some "Call start_tuning first to begin a session." }, st)) ∧
    (¬ sessionActive st →
      waitForPitchEntry st = .error "No active tuning session. Call start_tuning first.") := by
  refine ⟨?_, ?_, ?_⟩
  · intro env now id s hs ha
    have hact : sessionActive st := ⟨s, hs, ha⟩
    unfold startSession
    rw [dif_pos hact]
    have hcs : hact.choose = s := by
      have h1 := hact.choose_spec.1
      have h2 := hs.symm.trans h1
      exact (Option.some_inj.mp h2).symm
    rw [hcs]
  · intro h
    cases hs : st.session with
    | none => simp [stopSession, hs]
    | some s =>
      cases hb : s.active with
      | true => exact absurd ⟨s, hs, hb⟩ h
      | false => simp [stopSession, hs, hb]
  · intro h
    unfold waitForPitchEntry
    rw [if_neg h]

/-- C5 witness: the three state errors at concrete states. -/
theorem c5_witness :
    (startSession (.thrown "boom") 7 "standard" exampleActiveState =
      ({ success := false
         message := "A tuning session is already active."
         tuning := none
         error := some ("Stop the current session first. Currently tuning to: "
           ++ "Standard") }, exampleActiveState)) ∧
    (stopSession ManagerState.new =
      ({ success := false
         message := "No active tuning session"
         error := some "Call start_tuning first to begin a session." }, ManagerState.new)) ∧
    waitForPitchEntry ManagerState.new =
      .error "No active tuning session. Call start_tuning first." := by
  have hidle : ¬ sessionActive ManagerState.new := by
    rintro ⟨s, hs, -⟩
    simp [ManagerState.new] at hs
  exact ⟨(c5_state_errors exampleActiveState).1 (.thrown "boom") 7 "standard"
      { active := true, tuningId := "standard", tuningName := "Standard", startedAt := 0 }
      rfl rfl,
    (c5_state_errors ManagerState.new).2.1 hidle,
    (c5_state_errors ManagerState.new).2.2 hidle⟩

-- ---------------------------------------------------------------------------
-- Claim C10: waitForPitch resets the stability tracker on entry.
-- ---------------------------------------------------------------------------

/-- C10: on an active session, waitForPitch starts by resetting the
stability tracker (held string to none, start time to 0); with the tracker
reset, no poll iteration can resolve, whatever the clock says — only
readings delivered after the call starts can build up the 400 ms dwell. -/
theorem c10_wait_resets_tracker (st : ManagerState) (h : sessionActive st) :
    waitForPitchEntry st = .ok { st with stableString := none, stableStartTime := 0 } ∧
    (∀ now startTime timeoutMs (out : ProgressResult) (st' : ManagerState),
      checkStability { st with stableString := none, stableStartTime := 0 }
        now startTime timeoutMs ≠ (.resolve out, st')) := by
  constructor
  · unfold waitForPitchEntry
    rw [if_pos h]
  · intro now startTime timeoutMs out st'
    unfold checkStability
    split_ifs with h1 h2 <;> simp

/-- C10 witness: entry reset and non-resolution at the concrete state. -/
theorem c10_witness :
    waitForPitchEntry exampleActiveState =
      .ok { exampleActiveState with stableString := none, stableStartTime := 0 } ∧
    checkStability { exampleActiveState with stableString := none, stableStartTime := 0 }
        1000 0 30000 ≠
      (.resolve ⟨timeoutResult, [], 0, 6, false⟩,
        { exampleActiveState with stableString := none, stableStartTime := 0 }) := by
  have h : sessionActive exampleActiveState :=
    ⟨{ active := true, tuningId := "standard", tuningName := "Standard", startedAt := 0 },
      rfl, rfl⟩
  exact ⟨(c10_wait_resets_tracker exampleActiveState h).1,
    (c10_wait_resets_tracker exampleActiveState h).2 1000 0 30000 _ _⟩

-- ---------------------------------------------------------------------------
-- Claim C4: resolution conditions and progress fields of waitForPitch.
-- ---------------------------------------------------------------------------

/-- C4: a waitForPitch poll resolves with a pitch reading only when the
tracker holds a string whose dwell time (400 ms) has elapsed and the
cached result's matched string equals the tracked one; on resolution an
in-tune reading adds its string to the tuned set, and the returned result
carries the progress fields: the tuned positions sorted descending, their
count, total 6, and allInTune true exactly when all six strings are in the
tuned set.  Moreover the tracker's start time always marks the beginning
of an unbroken run of readings matching the same string, so resolution
requires 400 ms of continuous agreement. -/
theorem c4_wait_stable_resolution :
    (∀ (st : ManagerState) (now startTime timeoutMs : ℕ)
        (out : ProgressResult) (st' : ManagerState),
      checkStability st now startTime timeoutMs = (.resolve out, st') →
      ∃ s r, st.stableString = some s ∧ st.lastPitchResult = some r ∧
        r.closestString = some s ∧
        0 < st.stableStartTime ∧ STABLE_DURATION_MS ≤ now - st.stableStartTime ∧
        out.base = r ∧
        st' = { st with tunedStrings :=
          if r.inTune then insert s st.tunedStrings else st.tunedStrings } ∧
        (r.inTune = true → s ∈ st'.tunedStrings) ∧
        out.tunedStrings = sortedDesc st'.tunedStrings ∧
        List.Sorted (· ≥ ·) out.tunedStrings ∧
        (∀ a, a ∈ out.tunedStrings ↔ a ∈ st'.tunedStrings) ∧
        out.tunedCount = st'.tunedStrings.card ∧
        out.totalStrings = 6 ∧
        (out.allInTune = true ↔ st'.tunedStrings.card = 6) ∧
        (st'.tunedStrings ⊆ {1, 2, 3, 4, 5, 6} →
          (out.allInTune = true ↔ st'.tunedStrings = {1, 2, 3, 4, 5, 6}))) ∧
    (∀ (events : List (ℕ × PitchResult)) (st0 : ManagerState) (s t0 : ℕ),
      List.Pairwise (fun a b => a.1 < b.1) events →
      (foldReadings st0 events).stableString = some s →
      (foldReadings st0 events).stableStartTime = t0 →
      ∀ e ∈ events, t0 ≤ e.1 → e.2.closestString = some s) := by
  constructor
  · intro st now startTime timeoutMs out st' h
    unfold checkStability at h
    by_cases h1 : now - startTime > timeoutMs
    · rw [if_pos h1] at h
      simp at h
    · rw [if_neg h1] at h
      by_cases h2 : sessionActive st
      swap
      · rw [if_pos h2] at h
        simp at h
      rw [if_neg (not_not_intro h2)] at h
      cases hss : st.stableString with
      | none =>
        rw [hss] at h
        simp at h
      | some s =>
        cases hrr : st.lastPitchResult with
        | none =>
          rw [hss, hrr] at h
          simp at h
        | some r =>
          rw [hss, hrr] at h
          dsimp only at h
          by_cases hcond : st.stableStartTime > 0 ∧
              now - st.stableStartTime ≥ STABLE_DURATION_MS ∧ r.closestString = some s
          · rw [if_pos hcond] at h
            simp only [Prod.mk.injEq, CheckOutcome.resolve.injEq] at h
            obtain ⟨hout, hst'⟩ := h
            subst hout
            subst hst'
            refine ⟨s, r, rfl, rfl, hcond.2.2, hcond.1, hcond.2.1,
              rfl, rfl, ?_, rfl, sortedDesc_sorted _, ?_, rfl, rfl, ?_, ?_⟩
            · intro hIn
              rw [hIn]
              simp
            · intro a
              exact mem_sortedDesc _ a
            · simp
            · intro hsub
              simp only [decide_eq_true_eq]
              constructor
              · intro hcard
                refine Finset.eq_of_subset_of_card_le hsub ?_
                rw [hcard]
                decide
              · intro heq
                rw [heq]
                decide
          · rw [if_neg hcond] at h
            simp at h
  · exact fun events => stability_run events

/-- C4 witness: at t=600 the poll on the concrete state resolves (dwell
500 ms ≥ 400 ms, cached string agrees), string 5 completes the tuned set. -/
theorem c4_witness :
    (∃ s r, exampleWaitState.stableString = some s ∧
      exampleWaitState.lastPitchResult = some r ∧
      r.closestString = some s ∧
      0 < exampleWaitState.stableStartTime ∧
      STABLE_DURATION_MS ≤ 600 - exampleWaitState.stableStartTime ∧
      (⟨exampleInTuneResult, sortedDesc (insert 5 exampleWaitState.tunedStrings),
          (insert 5 exampleWaitState.tunedStrings).card, 6,
          decide ((insert 5 exampleWaitState.tunedStrings).card = 6)⟩ :
        ProgressResult).base = r ∧
      ({ exampleWaitState with
          tunedStrings := insert 5 exampleWaitState.tunedStrings } : ManagerState) =
        { exampleWaitState with tunedStrings :=
          if r.inTune then insert s exampleWaitState.tunedStrings
          else exampleWaitState.tunedStrings } ∧
      (r.inTune = true → s ∈ ({ exampleWaitState with
          tunedStrings := insert 5 exampleWaitState.tunedStrings } :
            ManagerState).tunedStrings) ∧
      (⟨exampleInTuneResult, sortedDesc (insert 5 exampleWaitState.tunedStrings),
          (insert 5 exampleWaitState.tunedStrings).card, 6,
          decide ((insert 5 exampleWaitState.tunedStrings).card = 6)⟩ :
        ProgressResult).tunedStrings =
        sortedDesc ({ exampleWaitState with
          tunedStrings := insert 5 exampleWaitState.tunedStrings } :
            ManagerState).tunedStrings ∧
      List.Sorted (· ≥ ·)
        (⟨exampleInTuneResult, sortedDesc (insert 5 exampleWaitState.tunedStrings),
            (insert 5 exampleWaitState.tunedStrings).card, 6,
            decide ((insert 5 exampleWaitState.tunedStrings).card = 6)⟩ :
          ProgressResult).tunedStrings ∧
      (∀ a, a ∈ (⟨exampleInTuneResult,
            sortedDesc (insert 5 exampleWaitState.tunedStrings),
            (insert 5 exampleWaitState.tunedStrings).card, 6,
            decide ((insert 5 exampleWaitState.tunedStrings).card = 6)⟩ :
          ProgressResult).tunedStrings ↔
        a ∈ ({ exampleWaitState with
            tunedStrings := insert 5 exampleWaitState.tunedStrings } :
          ManagerState).tunedStrings) ∧
      (⟨exampleInTuneResult, sortedDesc (insert 5 exampleWaitState.tunedStrings),
          (insert 5 exampleWaitState.tunedStrings).card, 6,
          decide ((insert 5 exampleWaitState.tunedStrings).card = 6)⟩ :
        ProgressResult).tunedCount =
        ({ exampleWaitState with
            tunedStrings := insert 5 exampleWaitState.tunedStrings } :
          ManagerState).tunedStrings.card ∧
      (⟨exampleInTuneResult, sortedDesc (insert 5 exampleWaitState.tunedStrings),
          (insert 5 exampleWaitState.tunedStrings).card, 6,
          decide ((insert 5 exampleWaitState.tunedStrings).card = 6)⟩ :
        ProgressResult).totalStrings = 6 ∧
      ((⟨exampleInTuneResult, sortedDesc (insert 5 exampleWaitState.tunedStrings),
          (insert 5 exampleWaitState.tunedStrings).card, 6,
          decide ((insert 5 exampleWaitState.tunedStrings).card = 6)⟩ :
        ProgressResult).allInTune = true ↔
        ({ exampleWaitState with
            tunedStrings := insert 5 exampleWaitState.tunedStrings } :
          ManagerState).tunedStrings.card = 6) ∧
      (({ exampleWaitState with
            tunedStrings := insert 5 exampleWaitState.tunedStrings } :
          ManagerState).tunedStrings ⊆ {1, 2, 3, 4, 5, 6} →
        ((⟨exampleInTuneResult, sortedDesc (insert 5 exampleWaitState.tunedStrings),
            (insert 5 exampleWaitState.tunedStrings).card, 6,
            decide ((insert 5 exampleWaitState.tunedStrings).card = 6)⟩ :
          ProgressResult).allInTune = true ↔
          ({ exampleWaitState with
              tunedStrings := insert 5 exampleWaitState.tunedStrings } :
            ManagerState).tunedStrings = {1, 2, 3, 4, 5, 6}))) ∧
    insert 5 exampleWaitState.tunedStrings = {1, 2, 3, 4, 5, 6} ∧
    (insert 5 exampleWaitState.tunedStrings).card = 6 := by
  refine ⟨c4_wait_stable_resolution.1 exampleWaitState 600 0 30000
    ⟨exampleInTuneResult, sortedDesc (insert 5 exampleWaitState.tunedStrings),
      (insert 5 exampleWaitState.tunedStrings).card, 6,
      decide ((insert 5 exampleWaitState.tunedStrings).card = 6)⟩
    { exampleWaitState with
        tunedStrings := insert 5 exampleWaitState.tunedStrings } rfl, ?_, ?_⟩
  · decide
  · decide

-- ---------------------------------------------------------------------------
-- Claim C6: noise gate and range filter of the pitch estimator.
-- ---------------------------------------------------------------------------

/-- C6: when a full analysis window is processed, a window whose RMS is
below the noise-gate threshold makes `process` return no frequency and
forget the previously remembered one (`getLastFrequency` is `none`
afterwards, so a later query never backfills it); a window that passes the
gate but whose detection result is absent or outside the 70-1500 Hz range
makes `process` return the previously known frequency unchanged. -/
theorem c6_noise_gate_and_range_filter (st : PitchDetectorProcessor)
    (detect : List ℝ → Option ℝ) (samples : List ℝ)
    (hinit : st.detectPitch = some detect)
    (hfull : ¬ (st.accumulatedSamples ++ samples).length < st.bufferSize) :
    (calculateRMS (sliceLast (st.accumulatedSamples ++ samples) st.bufferSize)
        < st.rmsThreshold →
      ∃ st', st.process samples = .ok (none, st') ∧
        st'.lastFrequency = none ∧ st'.getLastFrequency = none) ∧
    (¬ (calculateRMS (sliceLast (st.accumulatedSamples ++ samples) st.bufferSize)
        < st.rmsThreshold) →
      (detect (sliceLast (st.accumulatedSamples ++ samples) st.bufferSize) = none ∨
        (∀ f, detect (sliceLast (st.accumulatedSamples ++ samples) st.bufferSize) = some f →
          ¬ (GUITAR_FREQ_MIN ≤ f ∧ f ≤ GUITAR_FREQ_MAX))) →
      ∃ st', st.process samples = .ok (st.lastFrequency, st') ∧
        st'.lastFrequency = st.lastFrequency ∧
        st'.getLastFrequency = st.lastFrequency) := by
  constructor
  · intro hrms
    unfold PitchDetectorProcessor.process
    rw [hinit]
    dsimp only
    rw [if_neg hfull, if_pos hrms]
    exact ⟨_, rfl, rfl, rfl⟩
  · intro hrms hdet
    unfold PitchDetectorProcessor.process
    rw [hinit]
    dsimp only
    rw [if_neg hfull, if_neg hrms]
    cases hd : detect (sliceLast (st.accumulatedSamples ++ samples) st.bufferSize) with
    | none => exact ⟨_, rfl, rfl, rfl⟩
    | some f =>
      rcases hdet with hnone | hout
      · rw [hd] at hnone
        exact absurd hnone (by simp)
      · dsimp only
        rw [if_neg (hout f hd)]
        exact ⟨_, rfl, rfl, rfl⟩

lemma rms_zeros :
    calculateRMS (sliceLast (exampleDetector.accumulatedSamples ++
      List.replicate 4096 (0:ℝ)) exampleDetector.bufferSize) = 0 := by
  have hw : sliceLast (exampleDetector.accumulatedSamples ++
      List.replicate 4096 (0:ℝ)) exampleDetector.bufferSize =
      List.replicate 4096 (0:ℝ) := by
    show sliceLast (([]:List ℝ) ++ List.replicate 4096 (0:ℝ)) 4096 = _
    rw [List.nil_append]
    unfold sliceLast
    rw [List.length_replicate, Nat.sub_self, List.drop_zero]
  rw [hw]
  unfold calculateRMS
  rw [List.map_replicate]
  norm_num [List.sum_replicate]

lemma rms_ones :
    calculateRMS (sliceLast (exampleDetector.accumulatedSamples ++
      List.replicate 4096 (1:ℝ)) exampleDetector.bufferSize) = 1 := by
  have hw : sliceLast (exampleDetector.accumulatedSamples ++
      List.replicate 4096 (1:ℝ)) exampleDetector.bufferSize =
      List.replicate 4096 (1:ℝ) := by
    show sliceLast (([]:List ℝ) ++ List.replicate 4096 (1:ℝ)) 4096 = _
    rw [List.nil_append]
    unfold sliceLast
    rw [List.length_replicate, Nat.sub_self, List.drop_zero]
  rw [hw]
  unfold calculateRMS
  rw [List.map_replicate]
  norm_num [List.sum_replicate]

/-- C6 witness: a silent window (all zeros) forgets the remembered 110 Hz;
a loud window (all ones) whose detection lands at 2000 Hz keeps it. -/
theorem c6_witness :
    (calculateRMS (sliceLast (exampleDetector.accumulatedSamples ++
        List.replicate 4096 (0:ℝ)) exampleDetector.bufferSize)
      < exampleDetector.rmsThreshold ∧
      ∃ st', exampleDetector.process (List.replicate 4096 (0:ℝ)) = .ok (none, st') ∧
        st'.lastFrequency = none ∧ st'.getLastFrequency = none) ∧
    (∃ st', exampleDetector.process (List.replicate 4096 (1:ℝ)) =
        .ok (exampleDetector.lastFrequency, st') ∧
      st'.lastFrequency = exampleDetector.lastFrequency ∧
      st'.getLastFrequency = exampleDetector.lastFrequency) := by
  have hlow : calculateRMS (sliceLast (exampleDetector.accumulatedSamples ++
      List.replicate 4096 (0:ℝ)) exampleDetector.bufferSize)
      < exampleDetector.rmsThreshold := by
    rw [rms_zeros]
    show (0:ℝ) < exampleDetector.rmsThreshold
    norm_num [exampleDetector]
  have hhigh : ¬ (calculateRMS (sliceLast (exampleDetector.accumulatedSamples ++
      List.replicate 4096 (1:ℝ)) exampleDetector.bufferSize)
      < exampleDetector.rmsThreshold) := by
    rw [rms_ones]
    show ¬ ((1:ℝ) < exampleDetector.rmsThreshold)
    norm_num [exampleDetector]
  refine ⟨⟨hlow, ?_⟩, ?_⟩
  · refine (c6_noise_gate_and_range_filter exampleDetector (fun _ => some 2000)
      (List.replicate 4096 (0:ℝ)) rfl ?_).1 hlow
    show ¬ (([]:List ℝ) ++ List.replicate 4096 (0:ℝ)).length < 4096
    rw [List.nil_append, List.length_replicate]
    omega
  · refine (c6_noise_gate_and_range_filter exampleDetector (fun _ => some 2000)
      (List.replicate 4096 (1:ℝ)) rfl ?_).2 hhigh ?_
    show ¬ (([]:List ℝ) ++ List.replicate 4096 (1:ℝ)).length < 4096
    rw [List.nil_append, List.length_replicate]
    omega
    refine Or.inr ?_
    intro f hf
    have hf2 : f = 2000 := by simpa using hf.symm
    subst hf2
    unfold GUITAR_FREQ_MAX
    rintro ⟨-, hle⟩
    norm_num at hle

end GuitarTuner
